import Mathlib

/-!
# Verification of the UEhub timeclock core

Shallow embedding of `src/backend/app/modules/timeclock` (models.py,
repository.py, service.py).

Modelling conventions:
* SQLAlchemy rows become Lean structures; the database session becomes an
  explicit `DB` state record holding the three tables as lists.
* `datetime` values become `ℤ` (seconds); `Decimal`/`Numeric` values become
  `ℚ` (exact rationals); nullable columns become `Option`.
* Each `async` repository method that ends in `await self.db.commit()`
  becomes a pure function from the pre-state to the committed post-state
  (plus the returned row).  Fallible methods return `Option`/`Except`.
* Columns that are purely informative and never branched on
  (`description`, `address`, `created_at`/`updated_at`, audit
  `old_values`/`new_values`/`ip_address`/`user_agent`, `created_by_id`)
  are omitted from the embedding.
* Python truthiness tests on optional numerics (`if request.location_lat
  and ...`) are modelled by `pyTruthy`, which is false for `None` *and*
  for the numeric value `0`, exactly as in CPython.
-/

namespace UEhub

/-- `timeclock_job_site` row (models.py, class `JobSite`). -/
structure JobSite where
  id : String
  name : String
  latitude : Option ℚ
  longitude : Option ℚ
  radius_meters : ℤ
  qr_code_data : String
  is_active : Bool
  deriving DecidableEq

/-- `timeclock_time_entry` row (models.py, class `TimeEntry`). -/
structure TimeEntry where
  id : String
  user_id : String
  job_site_id : String
  clock_in_time : ℤ
  clock_out_time : Option ℤ
  break_start_time : Option ℤ
  break_end_time : Option ℤ
  total_hours : Option ℚ
  break_hours : Option ℚ
  notes : Option String
  clock_in_location_lat : Option ℚ
  clock_in_location_lng : Option ℚ
  clock_out_location_lat : Option ℚ
  clock_out_location_lng : Option ℚ
  is_approved : Bool
  approved_by_id : Option String
  approved_at : Option ℤ
  deriving DecidableEq

/-- `timeclock_time_entry_audit` row (models.py, class `TimeEntryAudit`);
the serialized before/after JSON snapshots are omitted (informative only). -/
structure TimeEntryAudit where
  time_entry_id : String
  action : String
  performed_by_id : String
  timestamp : ℤ
  deriving DecidableEq

/-- The persistent store: the three timeclock tables. -/
structure DB where
  job_sites : List JobSite
  time_entries : List TimeEntry
  audits : List TimeEntryAudit
  deriving DecidableEq

/-- Pydantic `JobSiteCreate` (schemas.py): fields used by the embedding. -/
structure JobSiteCreate where
  name : String
  latitude : Option ℚ
  longitude : Option ℚ
  radius_meters : ℤ
  deriving DecidableEq

/-- `TimeclockRepository.get_job_site`: `SELECT ... WHERE JobSite.id == job_site_id`. -/
def get_job_site (db : DB) (job_site_id : String) : Option JobSite :=
  db.job_sites.find? (fun js => decide (js.id = job_site_id))

/-- `TimeclockRepository.get_job_site_by_qr_code`:
`WHERE qr_code_data == qr AND is_active == True`. -/
def get_job_site_by_qr_code (db : DB) (qr_code_data : String) : Option JobSite :=
  db.job_sites.find? (fun js => decide (js.qr_code_data = qr_code_data) && js.is_active)

/-- `TimeclockRepository.create_job_site`: inserts a new row built from the
request data plus the issued QR token; the `is_active` column takes its
schema default `True`, and the fresh primary key `id` (a UUID in the source)
is passed in explicitly. -/
def create_job_site (db : DB) (data : JobSiteCreate) (id qr_code_data : String) :
    DB × JobSite :=
  let js : JobSite :=
    { id := id, name := data.name, latitude := data.latitude,
      longitude := data.longitude, radius_meters := data.radius_meters,
      qr_code_data := qr_code_data, is_active := true }
  ({ db with job_sites := db.job_sites ++ [js] }, js)

/-- `TimeclockRepository.delete_job_site`: soft delete — looks the row up by
id, sets `is_active = False` and commits; the row is never removed.  The
source returns `False`/`True`; we model that as `none` / `some newState`. -/
def delete_job_site (db : DB) (job_site_id : String) : Option DB :=
  match get_job_site db job_site_id with
  | none => none
  | some _ =>
      some { db with
        job_sites := db.job_sites.map (fun js =>
          if js.id = job_site_id then { js with is_active := false } else js) }

/-- `TimeclockRepository.get_time_entry`. -/
def get_time_entry (db : DB) (time_entry_id : String) : Option TimeEntry :=
  db.time_entries.find? (fun e => decide (e.id = time_entry_id))

/-- The row predicate of `get_active_time_entry`:
`user_id == user_id AND clock_out_time IS NULL`. -/
def isOpenFor (user_id : String) (e : TimeEntry) : Bool :=
  decide (e.user_id = user_id) && decide (e.clock_out_time = none)

/-- Number of open entries of a user (the quantity of §8's first property). -/
def openCount (db : DB) (user_id : String) : Nat :=
  db.time_entries.countP (isOpenFor user_id)

/-- In-place mutation of the row with the given primary key, as SQLAlchemy's
identity map does when the repository mutates a fetched row and commits. -/
def updateEntry (db : DB) (time_entry_id : String) (f : TimeEntry → TimeEntry) : DB :=
  { db with
    time_entries := db.time_entries.map (fun e =>
      if e.id = time_entry_id then f e else e) }

/-- The break length in seconds computed inside
`TimeclockRepository.clock_out`: `(break_end_time - break_start_time)` when
both timestamps are set, else `0`.  Note the source applies no clamping, so
this is negative when `break_end_time < break_start_time`. -/
def breakSeconds (e : TimeEntry) : ℤ :=
  match e.break_start_time, e.break_end_time with
  | some bs, some be => be - bs
  | _, _ => 0

/-- Python truthiness of `Optional[str]`: `None` and `""` are falsy. -/
def strTruthy : Option String → Bool
  | none => false
  | some s => decide (s ≠ "")

/-- The row mutation performed by `TimeclockRepository.clock_out` on the
fetched open entry: sets the clock-out columns and the derived hours.
`total_hours = (total_seconds - break_seconds) / 3600` with no flooring;
`break_hours` is stored only when `break_seconds > 0`, else left `NULL`. -/
def clockOutUpdate (clock_out_time : ℤ) (location_lat location_lng : Option ℚ)
    (notes : Option String) (e : TimeEntry) : TimeEntry :=
  let total_seconds : ℤ := clock_out_time - e.clock_in_time
  let break_seconds : ℤ := breakSeconds e
  { e with
    clock_out_time := some clock_out_time,
    clock_out_location_lat := location_lat,
    clock_out_location_lng := location_lng,
    notes := if strTruthy notes then notes else e.notes,
    total_hours := some (((total_seconds - break_seconds : ℤ) : ℚ) / 3600),
    break_hours :=
      if break_seconds > 0 then some ((break_seconds : ℚ) / 3600) else none }

/-- `TimeclockRepository.clock_out`: returns `None` when the entry is missing
or already closed; otherwise applies `clockOutUpdate` and commits. -/
def repo_clock_out (db : DB) (time_entry_id : String) (clock_out_time : ℤ)
    (location_lat location_lng : Option ℚ) (notes : Option String) :
    Option (DB × TimeEntry) :=
  match get_time_entry db time_entry_id with
  | none => none
  | some e =>
      if e.clock_out_time.isSome then none
      else
        let f := clockOutUpdate clock_out_time location_lat location_lng notes
        some (updateEntry db time_entry_id f, f e)

/-- `TimeclockRepository.create_audit_log`: appends a row and commits. -/
def create_audit_log (db : DB) (time_entry_id action performed_by_id : String)
    (now : ℤ) : DB :=
  { db with audits := db.audits ++
      [{ time_entry_id := time_entry_id, action := action,
         performed_by_id := performed_by_id, timestamp := now }] }

/-! ## Service (service.py, class `TimeclockService`)

The `ValueError`s raised by the service are modelled as error categories
(spec §7): "Invalid QR code" → `invalidToken`; "You are already clocked
in..." → `alreadyClockedIn`; "You are too far from the job site..." →
`outOfRange`; "Time entry not found" → `notFound`; "You can only clock out
your own time entries" / "... or access denied" → `forbidden`; "You are
already clocked out" → `alreadyClockedOut`; "Cannot start break..." →
`breakNotAllowed`; "Cannot end break..." → `noActiveBreak`. -/

/-- `TimeclockService._calculate_distance`: the Haversine great-circle
distance in meters between `(lat1, lng1)` and `(lat2, lng2)`, spherical
Earth radius 6 371 000 m.  The source computes with binary floats; the
embedding computes the same formula over `ℝ`. -/
noncomputable def calcDistance (lat1 lng1 lat2 lng2 : ℚ) : ℝ :=
  let lat1r : ℝ := (lat1 : ℝ) * Real.pi / 180
  let lng1r : ℝ := (lng1 : ℝ) * Real.pi / 180
  let lat2r : ℝ := (lat2 : ℝ) * Real.pi / 180
  let lng2r : ℝ := (lng2 : ℝ) * Real.pi / 180
  let dlat := lat2r - lat1r
  let dlng := lng2r - lng1r
  let a := Real.sin (dlat / 2) ^ 2 +
    Real.cos lat1r * Real.cos lat2r * Real.sin (dlng / 2) ^ 2
  let c := 2 * Real.arcsin (Real.sqrt a)
  c * 6371000

/-- The geofence comparison `distance > job_site.radius_meters` made by
`clock_in`/`clock_out` once the coordinate guard has passed. -/
noncomputable def haversineTooFar (lat1 lng1 lat2 lng2 : ℚ) (radius_meters : ℤ) : Bool :=
  @decide (calcDistance lat1 lng1 lat2 lng2 > (radius_meters : ℝ))
    (Classical.propDecidable _)

def spec_break_hours (break_start break_end : Option ℤ) : ℚ :=
  match break_start, break_end with
  | some bs, some be => max 0 (((be - bs : ℤ) : ℚ) / 3600)
  | _, _ => 0

def spec_worked_hours (clock_in_time clock_out_time : ℤ)
    (break_start break_end : Option ℤ) : ℚ :=
  max 0 (((clock_out_time - clock_in_time : ℤ) : ℚ) / 3600 -
    spec_break_hours break_start break_end)

/-! ## Concrete fixtures used by witnesses and counterexamples -/

/-- A job site with both coordinates set and nonzero. -/
def siteA : JobSite := ⟨"s1", "Site One", some 40, some (-75), 100, "QR1", true⟩

/-- An open entry whose recorded break interval is reversed:
`break_start_time = 600`, `break_end_time = 300`. -/
def skewE : TimeEntry :=
  ⟨"e2", "u1", "s1", 0, none, some 600, some 300, none, none, none,
   none, none, none, none, false, none, none⟩

/-- An open entry with one completed break (start 600, end 1200). -/
def doneBreakE : TimeEntry :=
  ⟨"e3", "u1", "s1", 0, none, some 600, some 1200, none, none, none,
   none, none, none, none, false, none, none⟩

def dbSkew : DB := ⟨[siteA], [skewE], []⟩
def dbDoneBreak : DB := ⟨[siteA], [doneBreakE], []⟩
/-- Creation payload for the round-trip example. -/
def dataW : JobSiteCreate := ⟨"Depot", none, none, 100⟩

/-- The job-site row produced by creating `dataW` with id `s9`, token `QR9`. -/
def siteW : JobSite := ⟨"s9", "Depot", none, none, 100, "QR9", true⟩

def dbW : DB := ⟨[siteW], [], []⟩

theorem create_audit_log_time_entries (db : DB) (a b c : String) (t : ℤ) :
    (create_audit_log db a b c t).time_entries = db.time_entries := rfl

theorem countP_map_le (l : List TimeEntry) (g : TimeEntry → TimeEntry)
    (p : TimeEntry → Bool) (h : ∀ e, p (g e) = true → p e = true) :
    (l.map g).countP p ≤ l.countP p := by
  induction l with
  | nil => simp
  | cons a t ih =>
    simp only [List.map_cons, List.countP_cons]
    by_cases hga : p (g a) = true
    · rw [if_pos hga, if_pos (h a hga)]
      omega
    · rw [if_neg hga]
      by_cases hpa : p a = true
      · rw [if_pos hpa]; omega
      · rw [if_neg hpa]; omega

theorem openCount_updateEntry_le (db : DB) (u tid : String)
    (f : TimeEntry → TimeEntry)
    (hf : ∀ x, isOpenFor u (f x) = true → isOpenFor u x = true) :
    openCount (updateEntry db tid f) u ≤ openCount db u := by
  unfold openCount updateEntry
  exact countP_map_le _ _ _ (fun e he => by
    by_cases hx : e.id = tid
    · rw [if_pos hx] at he; exact hf e he
    · rwa [if_neg hx] at he)

/-- **C2 (counterexample).** For the entry `skewE` (clock-in 0, break-start
600, break-end 300), the spec's formula gives `breakHours = max(0, −300 s) =
0` and `workedHours = 3600 s = 1 h`, but `TimeclockRepository.clock_out` at
clock-out time 3600 stores `total_hours = (3600 − (−300))/3600 = 13/12`:
a negative break interval is subtracted unclamped, inflating worked hours,
and the computed value disagrees with the claim's formula. -/
theorem c2_counterexample :
    repo_clock_out dbSkew "e2" 3600 none none none =
      some (updateEntry dbSkew "e2" (clockOutUpdate 3600 none none none),
            clockOutUpdate 3600 none none none skewE) ∧
    (clockOutUpdate 3600 none none none skewE).total_hours = some (13/12) ∧
    spec_worked_hours skewE.clock_in_time 3600
        skewE.break_start_time skewE.break_end_time = 1 ∧
    ¬ ((13 : ℚ) / 12 = 1) := by
  refine ⟨rfl, ?_, ?_, by norm_num⟩
  · simp only [clockOutUpdate, skewE, breakSeconds]
    norm_num
  · have h1 : spec_break_hours skewE.break_start_time skewE.break_end_time = 0 := by
      unfold spec_break_hours skewE
      exact max_eq_left (by norm_num)
    unfold spec_worked_hours
    rw [h1, max_eq_right (by norm_num [skewE])]
    norm_num [skewE]

/-- **C2 (amended).** On clock-out of an open entry, the code stores
`total_hours = ((co − ci) − breakSeconds)/3600` where `breakSeconds =
breakEnd − breakStart` when both are present (unclamped, possibly negative)
and 0 otherwise, and stores `break_hours = breakSeconds/3600` only when
`breakSeconds > 0` (else NULL); **no** flooring at 0 is applied to either
value.  When the timestamps are ordered (ci ≤ bs ≤ be ≤ co), as the
sequential flow produces, `workedHours ≥ 0` and
`workedHours + breakSeconds/3600 = (co − ci)/3600` do hold. -/
theorem c2_clock_out_hours (db : DB) (tid : String) (co : ℤ)
    (lat lng : Option ℚ) (notes : Option String) (e : TimeEntry)
    (h : get_time_entry db tid = some e) (hopen : e.clock_out_time = none) :
    repo_clock_out db tid co lat lng notes =
      some (updateEntry db tid (clockOutUpdate co lat lng notes),
            clockOutUpdate co lat lng notes e) ∧
    (clockOutUpdate co lat lng notes e).total_hours =
      some (((co - e.clock_in_time - breakSeconds e : ℤ) : ℚ) / 3600) ∧
    (clockOutUpdate co lat lng notes e).break_hours =
      (if 0 < breakSeconds e then some ((breakSeconds e : ℚ) / 3600) else none) ∧
    (∀ bs be, e.break_start_time = some bs → e.break_end_time = some be →
      e.clock_in_time ≤ bs → bs ≤ be → be ≤ co →
      ∃ w, (clockOutUpdate co lat lng notes e).total_hours = some w ∧ 0 ≤ w ∧
        w + (breakSeconds e : ℚ) / 3600 = ((co - e.clock_in_time : ℤ) : ℚ) / 3600) := by
  have h2 : (clockOutUpdate co lat lng notes e).total_hours =
      some (((co - e.clock_in_time - breakSeconds e : ℤ) : ℚ) / 3600) := by
    simp [clockOutUpdate]
  refine ⟨?_, h2, ?_, ?_⟩
  · unfold repo_clock_out
    simp [h, hopen]
  · simp [clockOutUpdate]
  · intro bs be hbs hbe hle1 hle2 hle3
    have hδ : breakSeconds e = be - bs := by simp [breakSeconds, hbs, hbe]
    refine ⟨((co - e.clock_in_time - breakSeconds e : ℤ) : ℚ) / 3600, h2, ?_, ?_⟩
    · apply div_nonneg _ (by norm_num : (0:ℚ) ≤ 3600)
      rw [hδ]
      exact_mod_cast (by omega : (0:ℤ) ≤ co - e.clock_in_time - (be - bs))
    · rw [hδ, div_add_div_same]
      congr 1
      push_cast
      ring

/-- Witness for C2 (amended): entry `doneBreakE` (clock-in 0, break 600–1200)
clocked out at 3600; the ordered-timestamps conclusion is exercised. -/
theorem c2_witness :
    ∃ w, (clockOutUpdate 3600 none none none doneBreakE).total_hours = some w ∧
      0 ≤ w ∧ w + (breakSeconds doneBreakE : ℚ) / 3600 =
        ((3600 - doneBreakE.clock_in_time : ℤ) : ℚ) / 3600 :=
  (c2_clock_out_hours dbDoneBreak "e3" 3600 none none none doneBreakE rfl
    rfl).2.2.2 600 1200 rfl rfl (by decide) (by decide) (by decide)

/-- **C6.** A point is always within radius of itself: the Haversine
distance from any coordinate to itself is exactly 0, so for any radius
`r ≥ 0` the geofence comparison `distance > r` is false and a scan at
exactly the site's coordinates can never fail `OutOfRange`. -/
theorem c6_distance_self_zero (lat lng : ℚ) (r : ℤ) (hr : 0 ≤ r) :
    calcDistance lat lng lat lng = 0 ∧
    haversineTooFar lat lng lat lng r = false := by
  have hd : calcDistance lat lng lat lng = 0 := by simp [calcDistance]
  refine ⟨hd, ?_⟩
  unfold haversineTooFar
  apply decide_eq_false
  rw [hd]
  exact not_lt.mpr (by exact_mod_cast hr)

/-- Witness for C6 at the concrete coordinate `(40, −75)` and radius 100. -/
theorem c6_witness :
    (0:ℤ) ≤ 100 ∧ (calcDistance 40 (-75) 40 (-75) = 0 ∧
      haversineTooFar 40 (-75) 40 (-75) 100 = false) :=
  ⟨by decide, c6_distance_self_zero 40 (-75) 100 (by decide)⟩

/-- **C7.** QR round-trip: creating site `X` with a fresh token `tok` makes
`get-by-token tok` return `X` (and no other site); after deactivating `X`
(soft delete) the same lookup returns nothing, while the row — token
included — is never removed.  Token freshness is the storage-level
uniqueness constraint on `qr_code_data` (`unique=True` in models.py), and
id freshness is the primary-key constraint. -/
theorem c7_qr_roundtrip (db : DB) (data : JobSiteCreate) (id tok : String)
    (db1 : DB) (X : JobSite)
    (hqr : ∀ js ∈ db.job_sites, js.qr_code_data ≠ tok)
    (hid : ∀ js ∈ db.job_sites, js.id ≠ id)
    (hcreate : create_job_site db data id tok = (db1, X)) :
    get_job_site_by_qr_code db1 tok = some X ∧
    ∃ db2, delete_job_site db1 X.id = some db2 ∧
      get_job_site_by_qr_code db2 tok = none ∧
      db2.job_sites.length = db1.job_sites.length ∧
      ∃ js ∈ db2.job_sites, js.id = id ∧ js.qr_code_data = tok ∧
        js.is_active = false := by
  unfold create_job_site at hcreate
  injection hcreate with h1 h2
  rw [h2] at h1
  subst h1
  have hXid : X.id = id := by rw [← h2]
  have hXqr : X.qr_code_data = tok := by rw [← h2]
  have hXact : X.is_active = true := by rw [← h2]
  have hqnone : db.job_sites.find?
      (fun js => decide (js.qr_code_data = tok) && js.is_active) = none := by
    rw [List.find?_eq_none]
    intro x hx
    simp [hqr x hx]
  have hinone : db.job_sites.find? (fun js => decide (js.id = X.id)) = none := by
    rw [List.find?_eq_none]
    intro x hx
    simp [hXid, hid x hx]
  constructor
  · unfold get_job_site_by_qr_code
    simp only [List.find?_append, hqnone]
    simp [List.find?, hXqr, hXact]
  · unfold delete_job_site get_job_site
    simp only [List.find?_append, hinone]
    have hfind1 : List.find? (fun js => decide (js.id = X.id)) [X] = some X := by
      simp [List.find?]
    rw [hfind1]
    refine ⟨_, rfl, ?_, by simp, ?_⟩
    · unfold get_job_site_by_qr_code
      rw [List.find?_eq_none]
      intro y hy
      have hy2 : y ∈ (db.job_sites ++ [X]).map (fun js =>
          if js.id = X.id then { js with is_active := false } else js) := hy
      obtain ⟨x, hx, rfl⟩ := List.mem_map.mp hy2
      rcases List.mem_append.mp hx with hx | hx
      · by_cases hxid : x.id = X.id
        · simp [hxid, hqr x hx]
        · simp [hxid, hqr x hx]
      · have hxX : x = X := by simpa using hx
        subst hxX
        simp
    · refine ⟨{ X with is_active := false }, ?_, ?_, ?_, rfl⟩
      · show ({ X with is_active := false } : JobSite) ∈
          (db.job_sites ++ [X]).map (fun js =>
            if js.id = X.id then { js with is_active := false } else js)
        simp
      · exact hXid
      · exact hXqr

/-- Witness for C7: round trip through the concrete store `dbW`. -/
theorem c7_witness :
    get_job_site_by_qr_code dbW "QR9" = some siteW ∧
    ∃ db2, delete_job_site dbW siteW.id = some db2 ∧
      get_job_site_by_qr_code db2 "QR9" = none ∧
      db2.job_sites.length = dbW.job_sites.length ∧
      ∃ js ∈ db2.job_sites, js.id = "s9" ∧ js.qr_code_data = "QR9" ∧
        js.is_active = false :=
  c7_qr_roundtrip ⟨[], [], []⟩ dataW "s9" "QR9" dbW siteW
    (by simp) (by simp) rfl

end UEhub
